import Mathlib

/-!
Verification development for the `mspyl` command-line front end.

The repository proxies package, virtual-environment, project and
build/publish operations to the external `uv` tool by constructing
argument vectors (`List String`), running them as subprocesses, and
pretty-printing the results.  This file gives a shallow embedding of the
command-construction and result-normalization layer:

* pure Python string operations (`str.strip`, `str.split`,
  `str.splitlines`, single-character `str.replace`) become structurally
  recursive Lean functions on `List Char`, with `String` kept at the
  boundary;
* each operation that performs external calls becomes a function from
  its inputs plus an oracle for the outcomes of the external calls to an
  explicit trace of events (commands run, messages printed, exceptions
  raised), mirroring the source's control flow including early returns;
* the file-system and network effects of project creation become an
  explicit record of the HTTP requests made, the bytes written and
  whether the operation raised.

Sources embedded: `src/commands/package.py`, `src/commands/venv.py`,
`src/commands/build_commands.py`, `src/commands/project.py`,
`src/commands/project_commands.py`.
-/

/-! ## Python string primitives -/

/-- Split a character list into the segments delimited by the
characters satisfying `p`.  Segments between two adjacent delimiters are
kept (as `[]`); a trailing delimiter does not open a trailing empty
segment.  These are exactly the semantics of Python's `str.splitlines`
(with `p` matching `'\n'`), and composing with a filter on nonempty
segments gives the semantics of Python's whitespace `str.split()`. -/
def splitSeg (p : Char → Bool) : List Char → List (List Char)
  | [] => []
  | c :: rest =>
    if p c then
      [] :: splitSeg p rest
    else
      match splitSeg p rest with
      | [] => [[c]]
      | t :: ts => (c :: t) :: ts

/-- Python `str.split()` with no argument: split on runs of whitespace,
discarding empty tokens (so all-whitespace input gives `[]`). -/
def pySplitWs (l : List Char) : List String :=
  ((splitSeg (fun c => c.isWhitespace) l).filter (fun t => t ≠ [])).map String.mk

/-- Python `str.strip()` with no argument: remove whitespace from both
ends. -/
def pyStripWs (l : List Char) : List Char :=
  ((l.dropWhile (fun c => c.isWhitespace)).reverse.dropWhile (fun c => c.isWhitespace)).reverse

/-- Python `str.splitlines()` for `\n`-separated text (the only line
separator appearing in the outputs modelled here). -/
def pySplitlines (l : List Char) : List (List Char) :=
  splitSeg (fun c => c = '\n') l

/-- Python `str.strip(c)` for a single character `c`: remove every
leading and every trailing occurrence of `c` (both ends, as Python's
`str.strip` does). -/
def pyStripChar (c : Char) (l : List Char) : List Char :=
  ((l.dropWhile (fun a => a = c)).reverse.dropWhile (fun a => a = c)).reverse

/-- Python `s.replace("!", " ")` for the single-character pattern `"!"`:
map each `'!'` to `' '`. -/
def pyReplaceBang (l : List Char) : List Char :=
  l.map (fun c => if c = '!' then ' ' else c)

/-- Python `line.split("==")[0]`: the characters up to (excluding) the
first occurrence of the two-character separator `==`, or the whole line
when the separator does not occur. -/
def takeUntilEqEq : List Char → List Char
  | [] => []
  | '=' :: '=' :: _ => []
  | c :: rest => c :: takeUntilEqEq rest

/-! ## Argument decoder

`package.py` decodes a user-supplied argument blob with the expression
`args.strip("*").replace("!", " ").split()` (lines 144 and 190; the
same expression appears in `project.py` line 40 and
`project_commands.py` line 45). -/

/-- The argument-blob decoder as written in the source:
`args.strip("*").replace("!", " ").split()`. -/
def decode (args : String) : List String :=
  pySplitWs (pyReplaceBang (pyStripChar '*' args.toList))

/-- Definition following the claim's words only (refinement comparison
for the decoder): strip the *leading* marker characters `*`, replace
every `!` by a space, split on whitespace runs, discard empty tokens.
Unlike the source's `strip("*")`, this does not touch trailing `*`
characters. -/
def decodeClaimed (args : String) : List String :=
  pySplitWs (pyReplaceBang (args.toList.dropWhile (fun a => a = '*')))

example : decode "*a!b!c" = ["a", "b", "c"] := by decide
example : decode "*" = [] := by decide
example : decode "*a!b*" = ["a", "b"] := by decide
example : decodeClaimed "*a!b*" = ["a", "b*"] := by decide

/-! ## package.py: executable name and command construction -/

/-- `UV_EXECUTABLE = "uv.exe" if sys.platform == "win32" else " uv"`
(package.py line 14), parameterized by the `sys.platform == "win32"`
test.  Note the leading space in the non-Windows value, exactly as in
the source. -/
def UV_EXECUTABLE (isWin32 : Bool) : String :=
  if isWin32 then "uv.exe" else " uv"

/-- `PIP_COMMAND = "pip"` (package.py line 15). -/
def PIP_COMMAND : String := "pip"

/-- `UPGRADE_FLAG = "--upgrade"` (package.py line 16). -/
def UPGRADE_FLAG : String := "--upgrade"

/-- `SYSTEM_FLAG = "--system"` (package.py line 17). -/
def SYSTEM_FLAG : String := "--system"

/-- Python `str.strip()` at the `String` level. -/
def pyStrip (s : String) : String :=
  String.mk (pyStripWs s.toList)

namespace PackageManager

/-- The argv built by `PackageManager.install` (package.py
lines 142-165): through `self.python_path` when one was resolved, else
through the system-wide `uv` invocation. -/
def installCmd (isWin32 : Bool) (pythonPath : String) (args : String) : List String :=
  if pythonPath ≠ "" then
    [pyStrip pythonPath, "-m", "uv", PIP_COMMAND, "install"] ++ decode args ++
      ["--compile-bytecode"]
  else
    [UV_EXECUTABLE isWin32, PIP_COMMAND, "install"] ++ decode args ++
      [SYSTEM_FLAG, "--compile-bytecode"]

/-- The argv built by `PackageManager.update` for one package
(package.py lines 216-241), also built per package inside
`update_all` (lines 272-292). -/
def updateCmd (isWin32 : Bool) (pythonPath : String) (package : String) : List String :=
  if pythonPath ≠ "" then
    [pyStrip pythonPath, "-m", "uv", PIP_COMMAND, "install", package, UPGRADE_FLAG]
  else
    [UV_EXECUTABLE isWin32, PIP_COMMAND, "install", package, UPGRADE_FLAG, SYSTEM_FLAG]

/-- The freeze-style listing argv issued first by `update_all`
(package.py lines 257-262). -/
def freezeCmd (isWin32 : Bool) : List String :=
  [UV_EXECUTABLE isWin32, PIP_COMMAND, "freeze", SYSTEM_FLAG]

/-- Package-name extraction from the freeze output (package.py
lines 265-267):
`[line.split("==")[0] for line in result.stdout.strip().splitlines()]`. -/
def freezePackages (stdout : String) : List String :=
  (pySplitlines (pyStripWs stdout.toList)).map (fun line => String.mk (takeUntilEqEq line))

end PackageManager

/-- Events observable from `PackageManager.update_all`: external calls,
the per-package error report, the final success message, and a
propagated exception from the initial freeze call. -/
inductive PkgEvent where
  | run (cmd : List String)
  | printUpdateError (package : String) (stderr : String)
  | printAllUpdated
  | raised
deriving DecidableEq

namespace PackageManager

/-- `PackageManager.update_all` (package.py lines 247-301) as a trace.
The freeze call runs with `check=True`, so a nonzero exit there raises
(`freezeOk = false`); the guard `if not result: return None` on a
`CompletedProcess` object is never taken.  Each per-package update runs
with `check=False`; a nonzero `returncode` (given by the oracle `rc`)
prints an error carrying the captured stderr (oracle `stderrOf`) and the
loop continues; the success message is printed after the loop. -/
def update_all (isWin32 : Bool) (pythonPath : String) (freezeOk : Bool)
    (freezeOut : String) (rc : List String → Int) (stderrOf : List String → String) :
    List PkgEvent :=
  if freezeOk = false then
    [.run (freezeCmd isWin32), .raised]
  else
    [.run (freezeCmd isWin32)] ++
    ((freezePackages freezeOut).flatMap (fun package =>
      let cmd := updateCmd isWin32 pythonPath package
      [.run cmd] ++
        (if rc cmd ≠ 0 then [.printUpdateError package (stderrOf cmd)] else []))) ++
    [.printAllUpdated]

/-- The data lines of a tabular report: strip the whole output, split
into lines, skip the 2 header lines
(`result.stdout.strip().splitlines()[2:]`, package.py lines 331 and
381). -/
def tableDataLines (stdout : String) : List (List Char) :=
  (pySplitlines (pyStripWs stdout.toList)).drop 2

/-- Rows added by `PackageManager.check_updates` (package.py
lines 331-334): each data line is split on whitespace and the row is
added only when it has exactly 3 tokens. -/
def check_updates_rows (stdout : String) : List (List String) :=
  (tableDataLines stdout).filterMap (fun line =>
    let parts := pySplitWs line
    if parts.length = 3 then some parts else none)

/-- Rows added by `PackageManager.list_external_modules` (package.py
lines 381-383): each data line is split on whitespace and
`table.add_row(*parts)` is called with whatever tokens resulted — there
is no length check. -/
def list_external_rows (stdout : String) : List (List String) :=
  (tableDataLines stdout).map (fun line => pySplitWs line)

end PackageManager

/-- What a report-consuming list operation shows the user: a table of
rows, or a plain message. -/
inductive ListOutcome where
  | table (rows : List (List String))
  | message (text : String)
deriving DecidableEq

namespace PackageManager

/-- The outer branch of `check_updates` (package.py lines 325-337):
`if result.stdout:` builds and prints the table (empty stdout is the
only falsy string), else prints the no-outdated-packages message. -/
def check_updates_render (stdout : String) : ListOutcome :=
  if stdout ≠ "" then .table (check_updates_rows stdout)
  else .message "No outdated packages found."

/-- The outer branch of `list_external_modules` (package.py
lines 376-386). -/
def list_external_render (stdout : String) : ListOutcome :=
  if stdout ≠ "" then .table (list_external_rows stdout)
  else .message "No external modules found."

end PackageManager

/-- The four reports the package `list` command can produce. -/
inductive PkgReport where
  | pythonVersions
  | internalModules
  | externalModules
  | outdatedPackages
deriving DecidableEq

/-- The package `list` click command (package.py lines 465-491) as the
sequence of reports it executes: a usage error (empty sequence) when no
option is given, otherwise independent `if` statements in the fixed
order python, internal, external, outdated, then the `--all` block. -/
def packageListReports (python internal ext outdated all : Bool) : List PkgReport :=
  if !(python || internal || ext || outdated || all) then []
  else
    (if python then [.pythonVersions] else []) ++
    (if internal then [.internalModules] else []) ++
    (if ext then [.externalModules] else []) ++
    (if outdated then [.outdatedPackages] else []) ++
    (if all then
      [.pythonVersions, .internalModules, .externalModules, .outdatedPackages]
    else [])

/-! ## build_commands.py: BuildManager.publish -/

/-- Events observable from `BuildManager.publish`: external calls and
printed messages. -/
inductive BuildEvent where
  | run (cmd : List String)
  | print (text : String)
deriving DecidableEq

namespace BuildManager

/-- The TestPyPI upload argv (build_commands.py lines 77-79). -/
def uploadTestPypiCmd : List String :=
  ["uv", "publish", "--repository", "testpypi", "dist/*"]

/-- The PyPI upload argv (build_commands.py lines 88-90). -/
def uploadPypiCmd : List String :=
  ["uv", "publish", "dist/*"]

/-- `BuildManager.publish` (build_commands.py lines 44-99) as a trace.
Each selected upload runs with `check=True` inside a `try`; the oracle
`ok` says whether a given argv exits zero.  A `CalledProcessError` is
caught, an error message is printed, and the function executes
`return None` — an early return that skips everything after it.  The
`github` branch only prints its not-implemented message. -/
def publish (test_pypi pypi github : Bool) (ok : List String → Bool) :
    List BuildEvent :=
  if test_pypi && !(ok uploadTestPypiCmd) then
    [.run uploadTestPypiCmd, .print "Error publishing to TestPyPI"]
  else
    (if test_pypi then [.run uploadTestPypiCmd] else []) ++
    if pypi && !(ok uploadPypiCmd) then
      [.run uploadPypiCmd, .print "Error publishing to PyPI"]
    else
      (if pypi then [.run uploadPypiCmd] else []) ++
      (if github then [.print "GitHub release functionality not yet implemented."] else [])

end BuildManager

/-! ## venv.py: VenvManager and the venv click commands -/

/-- The fields set by `VenvManager.__init__` (venv.py lines 18-47),
parameterized by the `os.name == "nt"` test.  `Path` values are
modelled as strings joined with `/`. -/
structure VenvManager where
  python_version : String
  venv_path : String
  bin_dir : String
  python_path : String
  uv_path : String
  activate_script : String
deriving DecidableEq

/-- `VenvManager.__init__(python_version, venv_path)`.  The Python
signature is `__init__(self, python_version: str = "3.8", venv_path:
Union[str, Path] = ".venv")`; callers that pass a single positional
argument therefore bind it to `python_version` and leave `venv_path` at
its default `".venv"`. -/
def VenvManager.init (isNT : Bool) (python_version : String) (venv_path : String) :
    VenvManager :=
  let bin_dir := if isNT then "Scripts" else "bin"
  { python_version := python_version
    venv_path := venv_path
    bin_dir := bin_dir
    python_path := venv_path ++ "/" ++ bin_dir ++ "/" ++
      (if isNT then "python.exe" else "python3")
    uv_path := "uv"
    activate_script := venv_path ++ "/" ++ bin_dir ++ "/" ++
      (if isNT then "activate.bat" else "activate") }

/-- `activate` click command (venv.py lines 298-308): the manager is
constructed as `VenvManager(path)` — one positional argument, bound to
`python_version`. -/
def activate_cli (isNT : Bool) (path : String) : VenvManager :=
  VenvManager.init isNT path ".venv"

/-- `deactivate` click command (venv.py lines 311-321):
`VenvManager(path)`. -/
def deactivate_cli (isNT : Bool) (path : String) : VenvManager :=
  VenvManager.init isNT path ".venv"

/-- `add` click command (venv.py lines 324-335): `VenvManager(path)`. -/
def add_cli (isNT : Bool) (path : String) : VenvManager :=
  VenvManager.init isNT path ".venv"

/-- `remove` click command (venv.py lines 338-361):
`VenvManager(path)`. -/
def remove_cli (isNT : Bool) (path : String) : VenvManager :=
  VenvManager.init isNT path ".venv"

/-- `update` click command (venv.py lines 364-374):
`VenvManager(path)`. -/
def update_cli (isNT : Bool) (path : String) : VenvManager :=
  VenvManager.init isNT path ".venv"

/-- `list` click command (venv.py lines 377-400):
`VenvManager(path)`. -/
def list_cli (isNT : Bool) (path : String) : VenvManager :=
  VenvManager.init isNT path ".venv"

/-- The three reports the venv `list` command can produce. -/
inductive VenvReport where
  | installedPackages
  | dependencyTree
  | updatesTable
deriving DecidableEq

/-- The body of the venv `list` click command (venv.py lines 388-400)
as the sequence of reports it executes: an `if` / `elif` / `elif` /
`elif` chain, so at most one branch runs. -/
def venvListReports (packages deps outdated all : Bool) : List VenvReport :=
  if packages then [.installedPackages]
  else if deps then [.dependencyTree]
  else if outdated then [.updatesTable]
  else if all then [.installedPackages, .dependencyTree, .updatesTable]
  else []

/-- Result of `VenvManager.update_packages`: the argv assembled in the
`try` block, and the external calls actually issued. -/
structure UpdatePackagesTrace where
  cmd : List String
  runs : List (List String)
deriving DecidableEq

/-- `VenvManager.update_packages` (venv.py lines 234-252).  The `try`
block builds `cmd = [uv_path, "pip", "install", "--compile-bytecode",
"--upgrade"]` and, when `packages` is nonempty, executes
`cmd.extend(packages)` — extending a list by a *string* appends its
individual characters.  No `subprocess.run` (nor any other call) is
ever issued on `cmd`; the function then returns. -/
def VenvManager.update_packages (vm : VenvManager) (packages : String) :
    UpdatePackagesTrace :=
  { cmd := [vm.uv_path, "pip", "install", "--compile-bytecode", "--upgrade"] ++
      (if packages ≠ "" then packages.toList.map (fun c => String.mk [c]) else [])
    runs := [] }

/-- The packages branch of the venv `update` click command (venv.py
lines 364-374): with `--all` absent and a nonempty `packages` argument,
it calls `VenvManager(path).update_packages(packages)`. -/
def update_cli_packages (isNT : Bool) (path : String) (packages : String) :
    UpdatePackagesTrace :=
  (update_cli isNT path).update_packages packages

/-! ## project.py and project_commands.py: create_project -/

/-- An HTTP response as seen by the `requests` calls: status code and
body text. -/
structure HttpResponse where
  status : Nat
  body : String
deriving DecidableEq

/-- Network/file effects of the template phase of `create_project`:
the URLs requested, the text written to `pyproject.toml` (if any), and
whether the operation raised. -/
structure FetchTrace where
  gets : List String
  written : Option String
  raised : Bool
deriving DecidableEq

/-- The fixed template URL (project.py line 51, project_commands.py
line 54). -/
def TEMPLATE_URL : String :=
  "https://raw.githubusercontent.com/mazinko450/programming_templates/a17b17c993bf0db6a9b3120daba4d5de4fe836ec/python/python_package_template.toml"

/-- The template phase of `ProjectManager.create_project` in
`project.py` (lines 48-59): when `pyproject.toml` does not already
exist, one `session.get(TEMPLATE_URL)`; `response.raise_for_status()`
raises for an HTTP status of 400 or above *before* anything is written
(re-raised as `RuntimeError` by the surrounding handler); otherwise
`response.text` is written verbatim. -/
def create_project_fetch (pyprojectExists : Bool) (resp : HttpResponse) : FetchTrace :=
  if pyprojectExists then
    { gets := [], written := none, raised := false }
  else if 400 ≤ resp.status then
    { gets := [TEMPLATE_URL], written := none, raised := true }
  else
    { gets := [TEMPLATE_URL], written := some resp.body, raised := false }

/-- The template phase of `ProjectManager.create_project` in
`project_commands.py` (lines 52-59): when `pyproject.toml` does not
already exist, `pyproject_path.write_text(requests.Session().get(pyproject_url).text)`
— there is no `raise_for_status`, so the response body is written
whatever the HTTP status. -/
def create_project_fetch_pc (pyprojectExists : Bool) (resp : HttpResponse) : FetchTrace :=
  if pyprojectExists then
    { gets := [], written := none, raised := false }
  else
    { gets := [TEMPLATE_URL], written := some resp.body, raised := false }

/-! ## Theorems -/

/-- Outcome oracle under which exactly the TestPyPI upload exits
nonzero. -/
def okTestPypiFails : List String → Bool :=
  fun cmd => !(cmd == BuildManager.uploadTestPypiCmd)

/-- C1 (counterexample): with both repository targets selected and the
TestPyPI upload failing, the failure is reported but the PyPI upload is
*not* attempted — `publish` returns early. -/
theorem c1_counterexample :
    BuildEvent.print "Error publishing to TestPyPI" ∈
      BuildManager.publish true true false okTestPypiFails ∧
    BuildEvent.run BuildManager.uploadPypiCmd ∉
      BuildManager.publish true true false okTestPypiFails := by
  decide

/-- C1 (amended): with both targets selected, a nonzero exit of the
TestPyPI upload is reported and `publish` returns immediately, so the
PyPI upload is not attempted; only when the TestPyPI upload succeeds is
the PyPI upload issued. -/
theorem c1_publish_testpypi_failure_aborts :
    (∀ (pypi github : Bool) (ok : List String → Bool),
      ok BuildManager.uploadTestPypiCmd = false →
      BuildManager.publish true pypi github ok =
        [.run BuildManager.uploadTestPypiCmd,
         .print "Error publishing to TestPyPI"]) ∧
    (∀ (github : Bool) (ok : List String → Bool),
      ok BuildManager.uploadTestPypiCmd = true →
      BuildEvent.run BuildManager.uploadPypiCmd ∈
        BuildManager.publish true true github ok) := by
  constructor
  · intro pypi github ok h
    simp [BuildManager.publish, h]
  · intro github ok h
    by_cases h2 : ok BuildManager.uploadPypiCmd <;>
      simp [BuildManager.publish, h, h2]

/-- C1 (witness): the amended theorem at concrete oracles. -/
theorem c1_witness :
    BuildManager.publish true true false okTestPypiFails =
      [.run BuildManager.uploadTestPypiCmd,
       .print "Error publishing to TestPyPI"] ∧
    BuildEvent.run BuildManager.uploadPypiCmd ∈
      BuildManager.publish true true false (fun _ => true) :=
  ⟨c1_publish_testpypi_failure_aborts.1 true false okTestPypiFails (by decide),
   c1_publish_testpypi_failure_aborts.2 false (fun _ => true) rfl⟩

/-- C2 (counterexample): on the venv `list` command with both
`--packages` and `--deps` requested, only the installed-packages report
is executed; the dependency report is skipped. -/
theorem c2_counterexample :
    venvListReports true true false false = [VenvReport.installedPackages] ∧
    VenvReport.dependencyTree ∉ venvListReports true true false false := by
  decide

/-- Definition following the spec's words (refinement comparison for
the list dispatch): the reports requested, one per requested sub-option,
in the order python, internal, external, outdated, none skipped. -/
def requestedReports (python internal ext outdated : Bool) : List PkgReport :=
  ([(python, PkgReport.pythonVersions), (internal, PkgReport.internalModules),
    (ext, PkgReport.externalModules), (outdated, PkgReport.outdatedPackages)]).filterMap
    (fun x => if x.1 then some x.2 else none)

/-- C2 (amended): the package `list` command executes exactly the
requested reports, independently and in the fixed order python,
internal, external, outdated (plus all four again under `--all`); the
venv `list` command instead dispatches through an `elif` chain, so only
the *first* requested sub-option among packages, deps, outdated, all is
executed and the later requested ones are skipped. -/
theorem c2_list_dispatch :
    (∀ python internal ext outdated : Bool,
      packageListReports python internal ext outdated false =
        requestedReports python internal ext outdated) ∧
    (∀ python internal ext outdated : Bool,
      packageListReports python internal ext outdated true =
        requestedReports python internal ext outdated ++
          [.pythonVersions, .internalModules, .externalModules, .outdatedPackages]) ∧
    (∀ deps outdated all : Bool,
      venvListReports true deps outdated all = [.installedPackages]) ∧
    (∀ outdated all : Bool,
      venvListReports false true outdated all = [.dependencyTree]) ∧
    (∀ all : Bool, venvListReports false false true all = [.updatesTable]) ∧
    venvListReports false false false true =
      [.installedPackages, .dependencyTree, .updatesTable] := by
  refine ⟨?_, ?_, ?_, ?_, ?_, ?_⟩
  · intro p i e o; cases p <;> cases i <;> cases e <;> cases o <;> decide
  · intro p i e o; cases p <;> cases i <;> cases e <;> cases o <;> decide
  · intro d o a; cases d <;> cases o <;> cases a <;> decide
  · intro o a; cases o <;> cases a <;> decide
  · intro a; cases a <;> decide
  · decide

/-- Stripping is unaffected by one more leading occurrence of the
stripped character. -/
theorem pyStripChar_cons_self (c : Char) (l : List Char) :
    pyStripChar c (c :: l) = pyStripChar c l := by
  simp [pyStripChar, List.dropWhile_cons]

/-- Stripping is unaffected by one more trailing occurrence of the
stripped character. -/
theorem pyStripChar_concat_self (c : Char) (l : List Char) :
    pyStripChar c (l ++ [c]) = pyStripChar c l := by
  induction l with
  | nil => simp [pyStripChar, List.dropWhile]
  | cons b l ih =>
    by_cases hb : b = c
    · subst hb
      rw [List.cons_append, pyStripChar_cons_self, ih,
        pyStripChar_cons_self]
    · simp [pyStripChar, List.dropWhile_cons, hb, List.reverse_append]

/-- C3 (counterexample): the decoder also strips *trailing* marker
characters, which the claimed leading-only algorithm does not. -/
theorem c3_counterexample :
    decode "*a!b*" = ["a", "b"] ∧
    decodeClaimed "*a!b*" = ["a", "b*"] ∧
    decode "*a!b*" ≠ decodeClaimed "*a!b*" := by
  decide

/-- C3 (amended): decoding strips all leading *and trailing* marker
characters `*`, replaces every `!` by a space, splits on whitespace
runs and discards empty tokens; `*a!b!c` decodes to `["a","b","c"]` and
`*` alone to `[]`. -/
theorem c3_decode_amended :
    (∀ s : String, decode ("*" ++ s) = decode s ∧ decode (s ++ "*") = decode s) ∧
    decode "*a!b!c" = ["a", "b", "c"] ∧
    decode "*" = [] ∧
    (∀ s : String, "" ∉ decode s) := by
  refine ⟨?_, by decide, by decide, ?_⟩
  · intro s
    constructor
    · have h : ("*" ++ s).toList = '*' :: s.toList := by simp
      simp [decode, h, pyStripChar_cons_self]
    · have h : (s ++ "*").toList = s.toList ++ ['*'] := by simp
      simp [decode, h, pyStripChar_concat_self]
  · intro s hmem
    simp only [decode, pySplitWs, List.mem_map, List.mem_filter] at hmem
    obtain ⟨t, ⟨_, hne⟩, heq⟩ := hmem
    rw [decide_eq_true_eq] at hne
    apply hne
    simpa using congrArg String.toList heq

/-- C3 (witness): the amended theorem at concrete blobs. -/
theorem c3_witness :
    decode ("*" ++ "a!b") = decode "a!b" ∧ "" ∉ decode "*a!b*" :=
  ⟨(c3_decode_amended.1 "a!b").1, c3_decode_amended.2.2.2 "*a!b*"⟩

/-- C4: `update_all` first issues the freeze listing call; every
package extracted from its output (split each line on `==`, keep the
first segment) receives one update call; a nonzero exit of an
individual update is reported together with its captured stderr; the
loop is never aborted — the final message is still printed and no
exception escapes. -/
theorem c4_update_all_best_effort (isWin32 : Bool) (pythonPath : String)
    (out : String) (rc : List String → Int) (stderrOf : List String → String)
    (p : String) (hp : p ∈ PackageManager.freezePackages out) :
    (PackageManager.update_all isWin32 pythonPath true out rc stderrOf).head? =
      some (.run (PackageManager.freezeCmd isWin32)) ∧
    PkgEvent.run (PackageManager.updateCmd isWin32 pythonPath p) ∈
      PackageManager.update_all isWin32 pythonPath true out rc stderrOf ∧
    (rc (PackageManager.updateCmd isWin32 pythonPath p) ≠ 0 →
      PkgEvent.printUpdateError p
          (stderrOf (PackageManager.updateCmd isWin32 pythonPath p)) ∈
        PackageManager.update_all isWin32 pythonPath true out rc stderrOf) ∧
    PkgEvent.printAllUpdated ∈
      PackageManager.update_all isWin32 pythonPath true out rc stderrOf ∧
    PkgEvent.raised ∉
      PackageManager.update_all isWin32 pythonPath true out rc stderrOf := by
  refine ⟨?_, ?_, ?_, ?_, ?_⟩
  · simp [PackageManager.update_all]
  · simp only [PackageManager.update_all, if_neg (by simp : ¬(true = false))]
    refine List.mem_append_left _ (List.mem_append_right _ ?_)
    exact List.mem_flatMap.mpr ⟨p, hp, by simp⟩
  · intro hrc
    simp only [PackageManager.update_all, if_neg (by simp : ¬(true = false))]
    refine List.mem_append_left _ (List.mem_append_right _ ?_)
    exact List.mem_flatMap.mpr ⟨p, hp, by simp [hrc]⟩
  · simp [PackageManager.update_all]
  · simp only [PackageManager.update_all, if_neg (by simp : ¬(true = false)),
      List.mem_append, List.mem_flatMap, List.mem_singleton, List.mem_cons]
    push_neg
    refine ⟨⟨by simp, fun q _ => ⟨by simp, ?_⟩⟩, by simp⟩
    by_cases h : rc (PackageManager.updateCmd isWin32 pythonPath q) ≠ 0 <;>
      simp [h]

/-- Return-code oracle under which exactly the update of package `b`
(system-wide invocation, non-Windows) exits nonzero. -/
def rcFailB : List String → Int :=
  fun cmd => if cmd = PackageManager.updateCmd false "" "b" then 1 else 0

/-- Captured-stderr oracle returning a fixed diagnostic. -/
def stderrConst : List String → String := fun _ => "boom"

/-- C4 (witness): over the freeze output listing `a`, `b`, `c` with
`b`'s update failing, the failure is reported and the loop still
reaches the final message. -/
theorem c4_witness :
    "b" ∈ PackageManager.freezePackages "a==1\nb==2\nc==3" ∧
    PkgEvent.printUpdateError "b" "boom" ∈
      PackageManager.update_all false "" true "a==1\nb==2\nc==3" rcFailB stderrConst ∧
    PkgEvent.run (PackageManager.updateCmd false "" "a") ∈
      PackageManager.update_all false "" true "a==1\nb==2\nc==3" rcFailB stderrConst ∧
    PkgEvent.run (PackageManager.updateCmd false "" "c") ∈
      PackageManager.update_all false "" true "a==1\nb==2\nc==3" rcFailB stderrConst ∧
    PkgEvent.printAllUpdated ∈
      PackageManager.update_all false "" true "a==1\nb==2\nc==3" rcFailB stderrConst :=
  ⟨by decide,
   (c4_update_all_best_effort false "" "a==1\nb==2\nc==3" rcFailB stderrConst
      "b" (by decide)).2.2.1 (by decide),
   (c4_update_all_best_effort false "" "a==1\nb==2\nc==3" rcFailB stderrConst
      "a" (by decide)).2.1,
   (c4_update_all_best_effort false "" "a==1\nb==2\nc==3" rcFailB stderrConst
      "c" (by decide)).2.1,
   (c4_update_all_best_effort false "" "a==1\nb==2\nc==3" rcFailB stderrConst
      "b" (by decide)).2.2.2.1⟩

/-- C5 (counterexample): `list_external_modules` keeps a data row with
only 1 token instead of dropping it. -/
theorem c5_counterexample :
    PackageManager.list_external_rows
        "Package Version Location\n------- ------- --------\nbar" = [["bar"]] ∧
    ¬(List.length ["bar"] = 3) := by
  decide

/-- Rows of a `filterMap` keeping exactly the images satisfying a
decidable predicate equal the filtered mapped rows. -/
theorem filterMap_if_eq_filter_map {α β : Type} (g : α → β) (p : β → Prop)
    [DecidablePred p] (l : List α) :
    l.filterMap (fun a => if p (g a) then some (g a) else none) =
      (l.map g).filter (fun b => decide (p b)) := by
  induction l with
  | nil => rfl
  | cons a l ih =>
    by_cases h : p (g a) <;>
      simp [List.filterMap_cons, List.filter_cons, h, ih]

/-- C5 (amended): `check_updates` drops every data row whose
whitespace-token count differs from 3; `list_external_modules` performs
no such check and hands every row to the table as split, whatever its
token count. -/
theorem c5_row_filtering :
    (∀ s : String, PackageManager.check_updates_rows s =
      (PackageManager.list_external_rows s).filter
        (fun r => decide (r.length = 3))) ∧
    PackageManager.check_updates_rows
        "P V L\n- - -\nfoo 1.0 2.0\nbar" = [["foo", "1.0", "2.0"]] ∧
    PackageManager.list_external_rows
        "P V L\n- - -\nfoo 1.0 2.0\nbar" = [["foo", "1.0", "2.0"], ["bar"]] := by
  refine ⟨?_, by decide, by decide⟩
  intro s
  simpa [PackageManager.check_updates_rows, PackageManager.list_external_rows] using
    filterMap_if_eq_filter_map (fun line => pySplitWs line)
      (fun r => r.length = 3) (PackageManager.tableDataLines s)

/-- C6 (counterexample): on output consisting of only the 2 header
lines, both list operations print an *empty table*, not the
nothing-found message. -/
theorem c6_counterexample :
    PackageManager.check_updates_render
        "Package Version Latest\n------- ------- ------" = ListOutcome.table [] ∧
    PackageManager.check_updates_render
        "Package Version Latest\n------- ------- ------" ≠
      ListOutcome.message "No outdated packages found." ∧
    PackageManager.list_external_render
        "Package Version Location\n------- ------- --------" =
      ListOutcome.table [] := by
  decide

/-- C6 (amended): the nothing-found message is produced exactly when
the captured output is the empty string; any nonempty output — in
particular output consisting of only the header lines — produces the
(possibly empty) table. -/
theorem c6_nothing_found_only_on_empty :
    PackageManager.check_updates_render "" =
      ListOutcome.message "No outdated packages found." ∧
    PackageManager.list_external_render "" =
      ListOutcome.message "No external modules found." ∧
    (∀ s : String, s ≠ "" → PackageManager.check_updates_render s =
      ListOutcome.table (PackageManager.check_updates_rows s)) ∧
    (∀ s : String, s ≠ "" → PackageManager.list_external_render s =
      ListOutcome.table (PackageManager.list_external_rows s)) := by
  refine ⟨by decide, by decide, ?_, ?_⟩ <;>
    intro s h <;>
    simp [PackageManager.check_updates_render,
      PackageManager.list_external_render, h]

/-- C6 (witness): the amended theorem at header-only output. -/
theorem c6_witness :
    PackageManager.check_updates_render "h1\nh2" =
      ListOutcome.table (PackageManager.check_updates_rows "h1\nh2") ∧
    PackageManager.list_external_render "h1\nh2" =
      ListOutcome.table (PackageManager.list_external_rows "h1\nh2") :=
  ⟨c6_nothing_found_only_on_empty.2.2.1 "h1\nh2" (by decide),
   c6_nothing_found_only_on_empty.2.2.2 "h1\nh2" (by decide)⟩

/-- C7 (counterexample): the `project_commands.py` variant of
`create_project` writes the response body on a 404 response instead of
raising. -/
theorem c7_counterexample :
    create_project_fetch_pc false ⟨404, "Not Found"⟩ =
      { gets := [TEMPLATE_URL], written := some "Not Found", raised := false } := by
  decide

/-- C7 (amended): when `pyproject.toml` is absent both variants make
exactly one GET to the fixed template URL (none when it is present);
in `project.py` a status of 400 or above raises before anything is
written and a lower status writes the body verbatim, while in
`project_commands.py` the body is written verbatim whatever the
status. -/
theorem c7_template_fetch :
    (∀ resp : HttpResponse,
      create_project_fetch true resp = ⟨[], none, false⟩ ∧
      create_project_fetch_pc true resp = ⟨[], none, false⟩) ∧
    (∀ resp : HttpResponse,
      (create_project_fetch false resp).gets = [TEMPLATE_URL] ∧
      (create_project_fetch_pc false resp).gets = [TEMPLATE_URL]) ∧
    (∀ resp : HttpResponse, 400 ≤ resp.status →
      create_project_fetch false resp = ⟨[TEMPLATE_URL], none, true⟩) ∧
    (∀ resp : HttpResponse, resp.status < 400 →
      create_project_fetch false resp = ⟨[TEMPLATE_URL], some resp.body, false⟩) ∧
    (∀ resp : HttpResponse,
      create_project_fetch_pc false resp =
        ⟨[TEMPLATE_URL], some resp.body, false⟩) := by
  refine ⟨?_, ?_, ?_, ?_, ?_⟩
  · intro resp; exact ⟨rfl, rfl⟩
  · intro resp
    constructor
    · by_cases h : 400 ≤ resp.status <;> simp [create_project_fetch, h]
    · rfl
  · intro resp h; simp [create_project_fetch, h]
  · intro resp h; simp [create_project_fetch, h, Nat.not_le.mpr h]
  · intro resp; rfl

/-- C7 (witness): the amended theorem at a 404 and at a 200 response. -/
theorem c7_witness :
    create_project_fetch false ⟨404, "Not Found"⟩ = ⟨[TEMPLATE_URL], none, true⟩ ∧
    create_project_fetch false ⟨200, "template"⟩ =
      ⟨[TEMPLATE_URL], some "template", false⟩ :=
  ⟨c7_template_fetch.2.2.1 ⟨404, "Not Found"⟩ (by decide),
   c7_template_fetch.2.2.2.1 ⟨200, "template"⟩ (by decide)⟩

/-- C8: on non-Windows platforms the first token of every
package-operation argv is the literal `" uv"` — it carries a leading
space, so it is not a program name resolvable as-is; only the Windows
value `"uv.exe"` is clean. -/
theorem c8_uv_executable_leading_space :
    UV_EXECUTABLE false = " uv" ∧
    (UV_EXECUTABLE false).toList.head? = some ' ' ∧
    (PackageManager.installCmd false "" "*requests").head? = some " uv" ∧
    (PackageManager.updateCmd false "" "requests").head? = some " uv" ∧
    (PackageManager.freezeCmd false).head? = some " uv" ∧
    UV_EXECUTABLE true = "uv.exe" := by
  decide

/-- C9: the venv `update` command with a named package list builds the
install/upgrade argv inside `update_packages` but issues *no* external
call at all; moreover the argv itself is extended with the individual
characters of the packages string rather than with package names. -/
theorem c9_update_packages_never_runs :
    (∀ (isNT : Bool) (path packages : String),
      (update_cli_packages isNT path packages).runs = []) ∧
    (update_cli_packages false ".venv" "requests").cmd =
      ["uv", "pip", "install", "--compile-bytecode", "--upgrade",
       "r", "e", "q", "u", "e", "s", "t", "s"] := by
  exact ⟨fun _ _ _ => rfl, by decide⟩

/-- C10: every venv subcommand that passes its `-p` (`--path`) value as the
single positional `VenvManager` argument binds it to `python_version`;
`venv_path` keeps its default `".venv"`, so the constructed manager
operates on `".venv"` (and the paths derived from it) whatever `-p`
was given. -/
theorem c10_path_option_bound_to_python_version :
    ∀ (isNT : Bool) (path : String),
      (activate_cli isNT path).venv_path = ".venv" ∧
      (activate_cli isNT path).python_version = path ∧
      (deactivate_cli isNT path).venv_path = ".venv" ∧
      (add_cli isNT path).venv_path = ".venv" ∧
      (add_cli isNT path).python_version = path ∧
      (remove_cli isNT path).venv_path = ".venv" ∧
      (update_cli isNT path).venv_path = ".venv" ∧
      (list_cli isNT path).venv_path = ".venv" ∧
      (list_cli isNT path).python_version = path ∧
      (activate_cli false path).python_path = ".venv/bin/python3" ∧
      (activate_cli true path).python_path = ".venv/Scripts/python.exe" :=
  fun _ _ => ⟨rfl, rfl, rfl, rfl, rfl, rfl, rfl, rfl, rfl, rfl, rfl⟩
